import Mathlib

/-!
Verification development for the AI Credit Suitability Copilot repository.

The embedding translates the TypeScript sources into Lean:
* `src/services/riskEngine.ts` — `normalize`, `evaluateProductForProfile`
  (hard-constraint pass, weighted-score pass, decision pass);
* the analysis pipeline (`runAnalysis`, `cancelAnalysis` in the context
  provider) — a pure dataflow model `runAnalysisPure` over collaborator
  results, and a state-transition model (`RState`, `applySeg`) for the
  cancellation / progress behaviour;
* `src/services/geminiService.ts` — the result handling of
  `generateExplanations` (fallback strings on failure).

JavaScript numbers are modelled as `ℚ` (no NaN/∞ arise on the modelled
paths).  JavaScript `x || d` on numbers is `jsOr` below: it yields `d`
both when `x` is null/undefined *and* when `x` is `0`, because `0` is
falsy — this faithfully keeps the `||`-coercion that the source uses.
Reason strings produced by the risk engine are template strings carrying
one numeric limit; they are embedded as the inductive `Reason`, one
constructor per template, carrying the limit value (JS number printing
is not re-modelled; the constructors are injective exactly like the
templates).  Pipeline error strings contain no numbers and are embedded
as actual `String`s.
-/

namespace Copilot

/-- Substring test (JS `String.prototype.includes`). -/
def strContains (s pat : String) : Bool :=
  decide (pat.toList <:+: s.toList)

/-- JS `x || d` for an optional number: null/undefined and `0` are falsy. -/
def jsOr (x : Option ℚ) (d : ℚ) : ℚ :=
  match x with
  | none => d
  | some v => if v = 0 then d else v

/-- JS truthiness of an optional number (`c && ...` guard). -/
def truthyNum (x : Option ℚ) : Bool :=
  match x with
  | none => false
  | some v => decide (v ≠ 0)

/-- Model of `parseFloat(x.toFixed(2))` for the nonnegative scores produced here:
round half away from zero to two decimal places. -/
def round2 (x : ℚ) : ℚ :=
  (⌊x * 100 + 1/2⌋ : ℤ) / 100

/-! ## Data model (src/types.ts) -/

inductive CustomerType where
  | INDIVIDUAL
  | SME
deriving DecidableEq, Repr

inductive TargetCustomerType where
  | INDIVIDUAL
  | SME
  | BOTH
deriving DecidableEq, Repr

structure CustomerProfile where
  customerType : CustomerType
  name : Option String := none
  age : Option ℚ := none
  citizenship : Option String := none
  countryOfResidence : Option String := none
  monthlyIncome : Option ℚ := none
  monthlyExpenses : Option ℚ := none
  existingLoanEMI : Option ℚ := none
  totalCreditCardLimits : Option ℚ := none
  totalCreditCardUtilization : Option ℚ := none
  businessAgeMonths : Option ℚ := none
  averageMonthlyRevenue : Option ℚ := none
  averageMonthlyNetProfit : Option ℚ := none
  bouncedChequesLast12Months : Option ℚ := none
  latePaymentIncidentsLast12Months : Option ℚ := none
  savingsBalanceEstimate : Option ℚ := none
  debtToIncomeRatio : Option ℚ := none
  dscr : Option ℚ := none
  riskFlags : List String := []
  notes : Option String := none
deriving DecidableEq, Repr

structure Constraints where
  minAge : Option ℚ := none
  maxAge : Option ℚ := none
  minMonthlyIncome : Option ℚ := none
  minAverageMonthlyRevenue : Option ℚ := none
  minBusinessAgeMonths : Option ℚ := none
  maxDebtToIncome : Option ℚ := none
  minDSCR : Option ℚ := none
  maxBouncedChequesLast12Months : Option ℚ := none
  maxLatePaymentIncidentsLast12Months : Option ℚ := none
deriving DecidableEq, Repr

structure Weights where
  incomeStability : Option ℚ := none
  revenueStability : Option ℚ := none
  debtToIncome : Option ℚ := none
  dscr : Option ℚ := none
  creditUtilization : Option ℚ := none
  bouncedCheques : Option ℚ := none
  latePayments : Option ℚ := none
deriving DecidableEq, Repr

structure Thresholds where
  approve : ℚ
  review : ℚ
deriving DecidableEq, Repr

structure Scoring where
  weights : Weights
  thresholds : Thresholds
deriving DecidableEq, Repr

structure Product where
  id : String
  name : String := ""
  description : String := ""
  targetCustomerType : TargetCustomerType := .BOTH
  constraints : Constraints
  scoring : Scoring
deriving DecidableEq, Repr

inductive Decision where
  | APPROVE
  | REVIEW
  | DECLINE
deriving DecidableEq, Repr

/-- One constructor per templated reason string of the risk engine, each
carrying the limit value named by the template. -/
inductive Reason where
  | underMinAge (lim : ℚ)            -- "Under minimum age (lim)"
  | overMaxAge (lim : ℚ)             -- "Over maximum age (lim)"
  | incomeBelowMin (lim : ℚ)         -- "Income below minimum (lim)"
  | revenueBelowMin (lim : ℚ)        -- "Revenue below minimum (lim)"
  | businessTooYoung (lim : ℚ)       -- "Business too young (<lim months)"
  | dtiTooHigh (lim : ℚ)             -- "DTI too high (>lim)"
  | dscrTooLow (lim : ℚ)             -- "DSCR too low (<lim)"
  | tooManyBouncedCheques (lim : ℚ)  -- "Too many bounced cheques (>lim)"
  | tooManyLatePayments (lim : ℚ)    -- "Too many late payments (>lim)"
  | borderlineScore                  -- "Borderline Score"
  | lowScore                         -- "Low Score"
deriving DecidableEq, Repr

/-- The summary string; `failedRequirements first?` stands for
"Failed requirements: (first reason, or the text Multiple criteria)". -/
inductive SummaryMsg where
  | failedRequirements (first : Option Reason)
  | strongScore        -- "Meets all criteria with a strong score."
  | moderateRisk       -- "Meets minimums but score indicates moderate risk."
  | belowApproval      -- "Score below approval threshold."
deriving DecidableEq, Repr

structure EvaluationResult where
  productId : String
  eligible : Bool
  decision : Decision
  score : ℚ
  reasons : List Reason
  summary : SummaryMsg
  customerExplanation : String
  advisorExplanation : String
deriving DecidableEq, Repr

/-! ## Risk engine (src/services/riskEngine.ts) -/

/-- Transcription of `normalize(value, good, bad, higherIsBetter)`, verbatim. -/
def normalize (value good bad : ℚ) (higherIsBetter : Bool) : ℚ :=
  if higherIsBetter then
    if value ≥ good then 1
    else if value ≤ bad then 0
    else (value - bad) / (good - bad)
  else
    if value ≤ good then 1
    else if value ≥ bad then 0
    else (bad - value) / (bad - good)

/-- One hard-constraint check of the form
`if (constraints.X && violated(X)) { eligible = false; reasons.push(...) }`:
the guard uses JS truthiness, so a limit of `0` is skipped. -/
def checkTruthy (st : Bool × List Reason) (lim : Option ℚ)
    (violated : ℚ → Bool) (mk : ℚ → Reason) : Bool × List Reason :=
  match lim with
  | none => st
  | some v => if v ≠ 0 ∧ violated v then (false, st.2 ++ [mk v]) else st

/-- One hard-constraint check of the form
`if (constraints.X !== undefined && violated(X)) { ... }`:
the guard only tests definedness, so a limit of `0` is checked. -/
def checkDefined (st : Bool × List Reason) (lim : Option ℚ)
    (violated : ℚ → Bool) (mk : ℚ → Reason) : Bool × List Reason :=
  match lim with
  | none => st
  | some v => if violated v then (false, st.2 ++ [mk v]) else st

/-- Section 1 of `evaluateProductForProfile`: the nine hard-constraint
checks, in source order, starting from `eligible = true, reasons = []`. -/
def hardConstraintPass (p : CustomerProfile) (c : Constraints) :
    Bool × List Reason :=
  let st := (true, ([] : List Reason))
  let st := checkTruthy st c.minAge (fun v => jsOr p.age 0 < v) .underMinAge
  let st := checkTruthy st c.maxAge (fun v => jsOr p.age 0 > v) .overMaxAge
  let st := checkTruthy st c.minMonthlyIncome
    (fun v => jsOr p.monthlyIncome 0 < v) .incomeBelowMin
  let st := checkTruthy st c.minAverageMonthlyRevenue
    (fun v => jsOr p.averageMonthlyRevenue 0 < v) .revenueBelowMin
  let st := checkTruthy st c.minBusinessAgeMonths
    (fun v => jsOr p.businessAgeMonths 0 < v) .businessTooYoung
  let st := checkTruthy st c.maxDebtToIncome
    (fun v => jsOr p.debtToIncomeRatio 0 > v) .dtiTooHigh
  let st := checkTruthy st c.minDSCR (fun v => jsOr p.dscr 0 < v) .dscrTooLow
  let st := checkDefined st c.maxBouncedChequesLast12Months
    (fun v => jsOr p.bouncedChequesLast12Months 0 > v) .tooManyBouncedCheques
  let st := checkDefined st c.maxLatePaymentIncidentsLast12Months
    (fun v => jsOr p.latePaymentIncidentsLast12Months 0 > v) .tooManyLatePayments
  st

/-- The seven `addScore(...)` call sites of section 2 of
`evaluateProductForProfile`, in source order:
(weight, raw profile value, good anchor, bad anchor, higherIsBetter). -/
def metricEntries (p : CustomerProfile) (w : Weights) :
    List (Option ℚ × Option ℚ × ℚ × ℚ × Bool) :=
  [ (w.debtToIncome, p.debtToIncomeRatio, 3/10, 6/10, false),
    (w.dscr, p.dscr, 3/2, 1, true),
    (w.creditUtilization, p.totalCreditCardUtilization, 3/10, 9/10, false),
    (w.bouncedCheques, p.bouncedChequesLast12Months, 0, 3, false),
    (w.latePayments, p.latePaymentIncidentsLast12Months, 0, 3, false),
    (w.incomeStability, p.monthlyIncome, 10000, 2000, true),
    (w.revenueStability, p.averageMonthlyRevenue, 50000, 5000, true) ]

/-- The `addScore` closure: accumulates `(totalScore, totalWeight)`.
`weight && weight > 0` gates the metric; a falsy raw value (missing or
`0`) is coerced to the bad anchor by `rawValue || bad`. -/
def addScore (acc : ℚ × ℚ)
    (e : Option ℚ × Option ℚ × ℚ × ℚ × Bool) : ℚ × ℚ :=
  match e with
  | (weight, rawValue, good, bad, higherBetter) =>
    match weight with
    | none => acc
    | some w =>
      if 0 < w then
        let val := jsOr rawValue bad
        let s := normalize val good bad higherBetter
        (acc.1 + s * w, acc.2 + w)
      else acc

/-- Section 2 of `evaluateProductForProfile`: the sequential `addScore`
calls folded over the call-site list. -/
def scorePass (p : CustomerProfile) (w : Weights) : ℚ × ℚ :=
  (metricEntries p w).foldl addScore (0, 0)

/-- Transcription of `totalWeight > 0 ? totalScore / totalWeight : 0`. -/
def finalScoreOf (p : CustomerProfile) (prod : Product) : ℚ :=
  let tw := (scorePass p prod.scoring.weights).2
  if 0 < tw then (scorePass p prod.scoring.weights).1 / tw else 0

/-- Section 3 of `evaluateProductForProfile`: the decision, summary and
final reason list from eligibility, collected reasons and the unrounded
score. -/
def decisionPass (eligible : Bool) (reasons : List Reason) (finalScore : ℚ)
    (t : Thresholds) : Decision × SummaryMsg × List Reason :=
  if eligible = false then
    (.DECLINE, .failedRequirements reasons.head?, reasons)
  else if finalScore ≥ t.approve then
    (.APPROVE, .strongScore, reasons)
  else if finalScore ≥ t.review then
    (.REVIEW, .moderateRisk, reasons ++ [.borderlineScore])
  else
    (.DECLINE, .belowApproval, reasons ++ [.lowScore])

/-- Transcription of `evaluateProductForProfile(profile, product)`, assembled from the
three sections exactly as in the source. -/
def evaluateProductForProfile (p : CustomerProfile) (prod : Product) :
    EvaluationResult :=
  let st := hardConstraintPass p prod.constraints
  let finalScore := finalScoreOf p prod
  let dsr := decisionPass st.1 st.2 finalScore prod.scoring.thresholds
  { productId := prod.id,
    eligible := st.1,
    decision := dsr.1,
    score := round2 finalScore,
    reasons := dsr.2.2,
    summary := dsr.2.1,
    customerExplanation := "Pending AI generation...",
    advisorExplanation := "Pending AI generation..." }

/-! ## Declarative views of the two risk-engine passes

These restate the constraint pass and the score pass as declarative
list expressions (following the spec's wording), to be proved equal to
the fold-based transcriptions above. -/

/-- Violations contributed by one truthiness-guarded constraint: the
constraint is *enforced* only when it is defined with a non-zero limit. -/
def truthyCheckList (lim : Option ℚ) (violated : ℚ → Bool)
    (mk : ℚ → Reason) : List Reason :=
  match lim with
  | none => []
  | some v => if v ≠ 0 ∧ violated v then [mk v] else []

/-- Violations contributed by one definedness-guarded constraint: the
constraint is enforced whenever it is defined, including at limit `0`. -/
def definedCheckList (lim : Option ℚ) (violated : ℚ → Bool)
    (mk : ℚ → Reason) : List Reason :=
  match lim with
  | none => []
  | some v => if violated v then [mk v] else []

/-- All violated *enforced* constraints, in source check order, one
templated reason per violation. -/
def enforcedViolations (p : CustomerProfile) (c : Constraints) : List Reason :=
  truthyCheckList c.minAge (fun v => jsOr p.age 0 < v) .underMinAge ++
  truthyCheckList c.maxAge (fun v => jsOr p.age 0 > v) .overMaxAge ++
  truthyCheckList c.minMonthlyIncome
    (fun v => jsOr p.monthlyIncome 0 < v) .incomeBelowMin ++
  truthyCheckList c.minAverageMonthlyRevenue
    (fun v => jsOr p.averageMonthlyRevenue 0 < v) .revenueBelowMin ++
  truthyCheckList c.minBusinessAgeMonths
    (fun v => jsOr p.businessAgeMonths 0 < v) .businessTooYoung ++
  truthyCheckList c.maxDebtToIncome
    (fun v => jsOr p.debtToIncomeRatio 0 > v) .dtiTooHigh ++
  truthyCheckList c.minDSCR (fun v => jsOr p.dscr 0 < v) .dscrTooLow ++
  definedCheckList c.maxBouncedChequesLast12Months
    (fun v => jsOr p.bouncedChequesLast12Months 0 > v) .tooManyBouncedCheques ++
  definedCheckList c.maxLatePaymentIncidentsLast12Months
    (fun v => jsOr p.latePaymentIncidentsLast12Months 0 > v) .tooManyLatePayments

/-- Per-metric contributions of the weighted-score pass, following the
spec: one pair `(weight, normalized)` per metric with a configured
non-zero weight, where the raw value is coerced through `rawValue || bad`
before the two-threshold ramp. -/
def weightedContributions (p : CustomerProfile) (w : Weights) :
    List (ℚ × ℚ) :=
  (metricEntries p w).filterMap (fun e =>
    match e with
    | (none, _, _, _, _) => none
    | (some wt, raw, good, bad, hb) =>
      if wt ≠ 0 then some (wt, normalize (jsOr raw bad) good bad hb)
      else none)

/-- The spec's score formula: `Σ(weight_i * normalized_i) / Σ(weight_i)`
over the configured non-zero weights, or `0` when there are none. -/
def specScore (p : CustomerProfile) (prod : Product) : ℚ :=
  let cs := weightedContributions p prod.scoring.weights
  let tw := (cs.map Prod.fst).sum
  if 0 < tw then (cs.map (fun c => c.1 * c.2)).sum / tw else 0

/-! ## Analysis pipeline, dataflow view

`runAnalysis` in the context provider, modelled as a pure function of the
collaborator results (validation response, extraction result, one
explanation result per scored product).  The raw thrown message is kept
here; the user-facing rewording of the catch block is `classifyError`
below. -/

structure DocumentValidation where
  slotKey : String
  expectedDocType : String
  detectedName : Option String := none
  detectedDocType : Option String := none
  nameMatchesDeclared : Bool
  typeMatchesSlot : Bool
  issues : List String := []
deriving DecidableEq, Repr

/-- Template rendering of `manualData.name` (undefined prints as the
text `undefined` in a JS template literal). -/
def renderManualName (manualName : Option String) : String :=
  manualName.getD "undefined"

/-- Fallback issue text when the collaborator supplied none and the name
check failed. -/
def nameMismatchMsg (manualName : Option String) (v : DocumentValidation) :
    String :=
  "Name mismatch in " ++ v.slotKey ++ ": Expected '" ++
    renderManualName manualName ++ "', found '" ++
    v.detectedName.getD "null" ++ "'."

/-- Fallback issue text when the collaborator supplied none and the type
check failed. -/
def typeMismatchMsg (v : DocumentValidation) : String :=
  "Type mismatch in " ++ v.slotKey ++ ": Expected " ++ v.expectedDocType ++
    ", found " ++ v.detectedDocType.getD "null" ++ "."

/-- The `validationResult.documentValidations.forEach` loop collecting
`validationErrors`. -/
def collectValidationErrors (manualName : Option String)
    (vs : List DocumentValidation) : List String :=
  vs.foldl (fun acc v =>
    if !v.nameMatchesDeclared || !v.typeMatchesSlot then
      if v.issues ≠ [] then acc ++ v.issues
      else acc ++
        (if !v.nameMatchesDeclared then [nameMismatchMsg manualName v] else []) ++
        (if !v.typeMatchesSlot then [typeMismatchMsg v] else [])
    else acc) []

/-- Declarative per-document issue list (the claim's view): collaborator
text preferred; otherwise one fallback message per failed check. -/
def docIssues (manualName : Option String) (v : DocumentValidation) :
    List String :=
  if v.nameMatchesDeclared && v.typeMatchesSlot then []
  else if v.issues ≠ [] then v.issues
  else
    (if !v.nameMatchesDeclared then [nameMismatchMsg manualName v] else []) ++
    (if !v.typeMatchesSlot then [typeMismatchMsg v] else [])

/-- The aggregated, newline-bulleted validation failure message. -/
def validationFailureMessage (errs : List String) : String :=
  "Document Validation Failed:\n• " ++ String.intercalate "\n• " errs

/-- Result handling of `generateExplanations`: a failed call is caught
and mapped to the fixed fallback pair; a successful call yields the
generated texts, each falling back to the generation-failed text when the
model omitted the field (`result.customer || ...`; `none` stands for a
missing/falsy field). -/
def generateExplanationsResult
    (r : Except Unit (Option String × Option String)) : String × String :=
  match r with
  | .error _ => ("Could not generate explanation.", "Could not generate explanation.")
  | .ok (c, a) =>
    (c.getD "Explanation generation failed.",
     a.getD "Explanation generation failed.")

/-- The spread enrichment of an evaluation with its explanation texts. -/
def withExplanations (ev : EvaluationResult)
    (r : Except Unit (Option String × Option String)) : EvaluationResult :=
  { ev with
    customerExplanation := (generateExplanationsResult r).1,
    advisorExplanation := (generateExplanationsResult r).2 }

def toTarget : CustomerType → TargetCustomerType
  | .INDIVIDUAL => .INDIVIDUAL
  | .SME => .SME

/-- Transcription of `DEMO_PRODUCTS.filter(p => p.targetCustomerType === "BOTH" ||
p.targetCustomerType === extractedProfile.customerType)`. -/
def relevantProducts (ct : CustomerType) (products : List Product) :
    List Product :=
  products.filter (fun pr =>
    decide (pr.targetCustomerType = .BOTH ∨ pr.targetCustomerType = toTarget ct))

inductive RunOutcome where
  | failed (msg : String)
  | ok (evals : List EvaluationResult)
deriving DecidableEq, Repr

/-- The happy-path/failure dataflow of `runAnalysis` (stages 0–4) as a
function of the collaborator results; cancellation and progress are
modelled separately by the state-transition model below. -/
def runAnalysisPure (manualName : Option String)
    (validationRes : Except String (List DocumentValidation))
    (extractionRes : Except String CustomerProfile)
    (products : List Product)
    (explOracle : List (Except Unit (Option String × Option String))) :
    RunOutcome :=
  match validationRes with
  | .error e => .failed e
  | .ok docs =>
    let errs := collectValidationErrors manualName docs
    if errs = [] then
      match extractionRes with
      | .error e => .failed e
      | .ok prof =>
        let initialEvals := (relevantProducts prof.customerType products).map
          (evaluateProductForProfile prof)
        .ok (List.zipWith withExplanations initialEvals explOracle)
    else .failed (validationFailureMessage errs)

/-- The catch-block rewording of a failed run's raw error into the stored
user-facing message.  `none` stands for a thrown value that is not an
`Error` instance (no `.message`). -/
def classifyError (err : Option String) : String :=
  match err with
  | none => "Analysis failed. Please try again."
  | some raw =>
    let m1 := if strContains raw "API key" then "Invalid or missing API Key." else raw
    let m2 := if strContains m1 "400" then "Bad Request: The AI could not process these documents." else m1
    if strContains m2 "500" then "Server Error: Gemini is currently experiencing issues." else m2

/-! ## Analysis pipeline, state-transition view

The provider state and the atomic code segments that mutate it.  Under
the JS event loop each synchronous block between `await` points runs to
completion, so each such block is one transition; every block of
`runAnalysis` (and of its progress ticker and auto-advance timer) first
compares the captured `runId` against `currentRunId.current` and, when
stale, performs no state write (either by the explicit guard or because
it throws `"Cancelled"` into a catch whose own guard then fails). -/

inductive Status where
  | idle
  | running
  | success
  | failed
deriving DecidableEq, Repr

structure RState where
  currentRunId : Option ℕ
  analysisStatus : Status
  progress : ℚ
  profile : CustomerProfile
  evaluations : List EvaluationResult
  error : Option String
  step : ℕ
deriving DecidableEq, Repr

instance {ε α : Type} [DecidableEq ε] [DecidableEq α] :
    DecidableEq (Except ε α) := fun a b =>
  match a, b with
  | .error e₁, .error e₂ => decidable_of_iff (e₁ = e₂) (by simp)
  | .error _, .ok _ => isFalse (by simp)
  | .ok _, .error _ => isFalse (by simp)
  | .ok v₁, .ok v₂ => decidable_of_iff (v₁ = v₂) (by simp)

/-- The atomic synchronous segments of one `runAnalysis` invocation,
parameterised by the data the awaited call returned. -/
inductive RSeg where
  /-- Post-validation block: collected issue strings (empty = all valid).
  On issues it throws and the catch stores the classified message. -/
  | validated (errs : List String)
  /-- Post-extraction block: either the thrown message or the profile;
  on success it also scores the products (`setProfile`, `setEvaluations`,
  progress 60 then 70 — folded to the block's final value 70). -/
  | extracted (res : Except String CustomerProfile)
  /-- One completed explanation call: `completedItems/totalItems`
  progress update, capped at 95. -/
  | explProgress (completed total : ℕ)
  /-- Final block after `Promise.all`: publish enriched evaluations,
  progress 100, status success. -/
  | finished (fullEvals : List EvaluationResult)
  /-- One 400 ms tick of the artificial progress interval. -/
  | tick
  /-- The 600 ms auto-advance timer body (`setStep(3)`). -/
  | autoAdvance
  /-- The catch block with a raw thrown message (non-`Error` throws are
  modelled by `classifyError none` upstream and do not occur here). -/
  | failedCatch (msg : String)
deriving DecidableEq, Repr

/-- Effect of one segment of the run identified by `a`.  Every branch is
gated on `currentRunId = some a`, exactly as each source block is. -/
def applySeg (products : List Product) (a : ℕ) (seg : RSeg) (s : RState) :
    RState :=
  if s.currentRunId = some a then
    match seg with
    | .validated errs =>
      if errs = [] then { s with progress := 30 }
      else
        { s with analysisStatus := .failed,
                 error := some (classifyError
                   (some (validationFailureMessage errs))) }
    | .extracted res =>
      match res with
      | .error e =>
        { s with analysisStatus := .failed,
                 error := some (classifyError (some e)) }
      | .ok prof =>
        { s with progress := 70,
                 profile := prof,
                 evaluations := (relevantProducts prof.customerType products).map
                   (evaluateProductForProfile prof) }
    | .explProgress completed total =>
      { s with progress := min (70 + ((completed : ℚ) / (total : ℚ)) * 25) 95 }
    | .finished fullEvals =>
      { s with evaluations := fullEvals, progress := 100,
               analysisStatus := .success }
    | .tick =>
      { s with progress := if s.progress ≥ 95 then s.progress else s.progress + 1 }
    | .autoAdvance => { s with step := 3 }
    | .failedCatch msg =>
      if msg = "Cancelled" then { s with analysisStatus := .idle }
      else
        { s with analysisStatus := .failed,
                 error := some (classifyError (some msg)) }
  else s

/-- Transcription of `cancelAnalysis`: guarded on a running status; invalidates the run id
and resets status/progress, leaving data and error untouched. -/
def applyCancel (s : RState) : RState :=
  if s.analysisStatus = .running then
    { s with currentRunId := none, analysisStatus := .idle, progress := 0 }
  else s

/-- The synchronous prefix of a new `runAnalysis` invocation with fresh
id `b`: records `b` as current and resets status/error/progress. -/
def applyStart (b : ℕ) (s : RState) : RState :=
  { s with currentRunId := some b, analysisStatus := .running,
           error := none, progress := 0 }

def defaultProfile : CustomerProfile := { customerType := .INDIVIDUAL }

def initialRState : RState :=
  { currentRunId := none, analysisStatus := .idle, progress := 0,
    profile := defaultProfile, evaluations := [], error := none, step := 1 }

/-- State right after the synchronous prefix of a `runAnalysis` call. -/
def startedState : RState := applyStart 0 initialRState

/-! ## Concrete instances used by counterexamples and witnesses -/

/-- A product whose only scoring weight is on bounced cheques. -/
def prodBC : Product :=
  { id := "bc", constraints := {},
    scoring := { weights := { bouncedCheques := some 1 },
                 thresholds := { approve := 3/4, review := 1/2 } } }

/-- Profile with zero bounced cheques in the last 12 months (present,
and exactly at the good anchor). -/
def profBC0 : CustomerProfile :=
  { customerType := .INDIVIDUAL, bouncedChequesLast12Months := some 0 }

/-- Profile with one bounced cheque in the last 12 months. -/
def profBC1 : CustomerProfile :=
  { customerType := .INDIVIDUAL, bouncedChequesLast12Months := some 1 }

/-- Product defining `maxDebtToIncome = 0` (a defined constraint with a
falsy limit value). -/
def prodDTI0 : Product :=
  { id := "dti0", constraints := { maxDebtToIncome := some 0 },
    scoring := { weights := {},
                 thresholds := { approve := 0, review := 0 } } }

/-- Profile with a debt-to-income ratio of 2. -/
def profDTI : CustomerProfile :=
  { customerType := .INDIVIDUAL, debtToIncomeRatio := some 2 }

/-- Product with a minimum age of 21 (scenario 2 of the spec). -/
def prodMinAge : Product :=
  { id := "age21", constraints := { minAge := some 21 },
    scoring := { weights := {},
                 thresholds := { approve := 3/4, review := 1/2 } } }

/-- A 19-year-old applicant. -/
def profAge19 : CustomerProfile :=
  { customerType := .INDIVIDUAL, age := some 19 }

/-- Product weighting DTI (1) and DSCR (2). -/
def prodMix : Product :=
  { id := "mix", constraints := {},
    scoring := { weights := { debtToIncome := some 1, dscr := some 2 },
                 thresholds := { approve := 3/4, review := 1/2 } } }

/-- Profile with a DTI of 0.4 and a DSCR of 1.25. -/
def profMix : CustomerProfile :=
  { customerType := .INDIVIDUAL, debtToIncomeRatio := some (2/5),
    dscr := some (5/4) }

/-- Product weighting only DSCR; used to land in the REVIEW band. -/
def prodDscr : Product :=
  { id := "dscr", constraints := {},
    scoring := { weights := { dscr := some 1 },
                 thresholds := { approve := 3/4, review := 1/2 } } }

/-- A validation finding whose name check failed, whose type check
passed, and for which the collaborator supplied no issue text. -/
def valNameOnly : DocumentValidation :=
  { slotKey := "ID_DOCUMENT", expectedDocType := "PAYSLIP",
    detectedName := some "Bob", detectedDocType := some "PAYSLIP",
    nameMatchesDeclared := false, typeMatchesSlot := true, issues := [] }

/-! ## Bridge lemmas between the fold-based transcriptions and their
declarative views -/

theorem checkTruthy_eq (st : Bool × List Reason) (lim : Option ℚ)
    (violated : ℚ → Bool) (mk : ℚ → Reason) :
    checkTruthy st lim violated mk =
      (st.1 && (truthyCheckList lim violated mk).isEmpty,
       st.2 ++ truthyCheckList lim violated mk) := by
  cases lim with
  | none => simp [checkTruthy, truthyCheckList]
  | some v =>
    by_cases h : v ≠ 0 ∧ violated v = true <;>
      simp [checkTruthy, truthyCheckList, h]

theorem checkDefined_eq (st : Bool × List Reason) (lim : Option ℚ)
    (violated : ℚ → Bool) (mk : ℚ → Reason) :
    checkDefined st lim violated mk =
      (st.1 && (definedCheckList lim violated mk).isEmpty,
       st.2 ++ definedCheckList lim violated mk) := by
  cases lim with
  | none => simp [checkDefined, definedCheckList]
  | some v =>
    by_cases h : violated v = true <;>
      simp [checkDefined, definedCheckList, h]

theorem isEmpty_append (l₁ l₂ : List Reason) :
    (l₁ ++ l₂).isEmpty = (l₁.isEmpty && l₂.isEmpty) := by
  cases l₁ <;> simp [List.isEmpty]

/-- The imperative hard-constraint pass equals the declarative violation
list: eligibility is the emptiness of the list and the collected reasons
are exactly the list. -/
theorem hardConstraintPass_eq (p : CustomerProfile) (c : Constraints) :
    hardConstraintPass p c =
      ((enforcedViolations p c).isEmpty, enforcedViolations p c) := by
  simp only [hardConstraintPass, checkTruthy_eq, checkDefined_eq,
    enforcedViolations, isEmpty_append, List.nil_append, List.append_assoc,
    Bool.true_and, Bool.and_assoc]

theorem addScore_foldl (l : List (Option ℚ × Option ℚ × ℚ × ℚ × Bool))
    (acc : ℚ × ℚ)
    (h : ∀ e ∈ l, ∀ w, e.1 = some w → 0 ≤ w) :
    l.foldl addScore acc =
      (acc.1 + ((l.filterMap (fun e =>
          match e with
          | (none, _, _, _, _) => none
          | (some wt, raw, good, bad, hb) =>
            if wt ≠ 0 then some (wt, normalize (jsOr raw bad) good bad hb)
            else none)).map (fun c => c.1 * c.2)).sum,
       acc.2 + ((l.filterMap (fun e =>
          match e with
          | (none, _, _, _, _) => none
          | (some wt, raw, good, bad, hb) =>
            if wt ≠ 0 then some (wt, normalize (jsOr raw bad) good bad hb)
            else none)).map Prod.fst).sum) := by
  induction l generalizing acc with
  | nil => simp
  | cons e tl ih =>
    obtain ⟨w?, raw, good, bad, hb⟩ := e
    cases w? with
    | none =>
      simp only [List.foldl_cons, List.filterMap_cons]
      rw [ih _ (fun e he => h e (List.mem_cons_of_mem _ he))]
      rfl
    | some wt =>
      have hw : 0 ≤ wt := h _ (List.mem_cons_self _ _) wt rfl
      by_cases hz : wt = 0
      · subst hz
        simp only [List.foldl_cons, List.filterMap_cons, addScore]
        rw [ih _ (fun e he => h e (List.mem_cons_of_mem _ he))]
        norm_num
      · have hpos : 0 < wt := lt_of_le_of_ne hw (Ne.symm hz)
        simp only [List.foldl_cons, List.filterMap_cons, addScore, hpos,
          if_pos, hz, ite_true, ne_eq, not_false_iff, List.map_cons,
          List.sum_cons]
        rw [ih _ (fun e he => h e (List.mem_cons_of_mem _ he))]
        rw [Prod.mk.injEq]
        constructor <;> ring

theorem collectValidationErrors_eq_flatMap (manualName : Option String)
    (vs : List DocumentValidation) :
    collectValidationErrors manualName vs = vs.flatMap (docIssues manualName) := by
  suffices h : ∀ acc, vs.foldl (fun acc v =>
      if !v.nameMatchesDeclared || !v.typeMatchesSlot then
        if v.issues ≠ [] then acc ++ v.issues
        else acc ++
          (if !v.nameMatchesDeclared then [nameMismatchMsg manualName v] else []) ++
          (if !v.typeMatchesSlot then [typeMismatchMsg v] else [])
      else acc) acc = acc ++ vs.flatMap (docIssues manualName) by
    simpa [collectValidationErrors] using h []
  induction vs with
  | nil => simp
  | cons v tl ih =>
    intro acc
    simp only [List.foldl_cons, List.flatMap_cons]
    rw [ih]
    by_cases hn : v.nameMatchesDeclared <;> by_cases ht : v.typeMatchesSlot <;>
      by_cases hi : v.issues = [] <;>
      simp [docIssues, hn, ht, hi, List.append_assoc]

/-! ## Claim C1 -/

/-- C1 counterexample: `maxDebtToIncome` is *defined* as `0` on the
product and violated by the profile (DTI `0.5 > 0`), yet the result is
eligible with an empty reason list — the truthiness guard skips a
defined constraint whose limit is `0`, so the claimed "eligible iff no
defined constraint is violated" is false as stated. -/
theorem c1_defined_zero_constraint_skipped :
    prodDTI0.constraints.maxDebtToIncome = some 0 ∧
    jsOr profDTI.debtToIncomeRatio 0 > 0 ∧
    (evaluateProductForProfile profDTI prodDTI0).eligible = true ∧
    (evaluateProductForProfile profDTI prodDTI0).reasons = [] := by
  refine ⟨rfl, ?_, ?_, ?_⟩
  · norm_num [jsOr, profDTI]
  · show (hardConstraintPass profDTI prodDTI0.constraints).1 = true
    rw [hardConstraintPass_eq]
    norm_num [enforcedViolations, truthyCheckList, definedCheckList,
      prodDTI0, profDTI, jsOr]
  · show (decisionPass (hardConstraintPass profDTI prodDTI0.constraints).1
      (hardConstraintPass profDTI prodDTI0.constraints).2
      (finalScoreOf profDTI prodDTI0) prodDTI0.scoring.thresholds).2.2 = []
    rw [hardConstraintPass_eq]
    norm_num [enforcedViolations, truthyCheckList, definedCheckList,
      prodDTI0, profDTI, jsOr, decisionPass, finalScoreOf, scorePass,
      metricEntries, addScore]

/-- C1 (amended): eligibility is false iff at least one *enforced*
constraint is violated — where the seven truthiness-guarded constraints
(minAge, maxAge, minMonthlyIncome, minAverageMonthlyRevenue,
minBusinessAgeMonths, maxDebtToIncome, minDSCR) are enforced only when
defined with a non-zero limit, and the two definedness-guarded ones
(maxBouncedChequesLast12Months, maxLatePaymentIncidentsLast12Months) are
enforced whenever defined, `0` included.  A missing profile value is
treated as `0`; each violated enforced constraint contributes exactly
one templated reason naming its limit, and an ineligible result lists
every violation in check order. -/
theorem c1_eligibility_enforced_constraints (p : CustomerProfile)
    (prod : Product) :
    (evaluateProductForProfile p prod).eligible
        = (enforcedViolations p prod.constraints).isEmpty ∧
    ((evaluateProductForProfile p prod).eligible = false →
      (evaluateProductForProfile p prod).reasons
        = enforcedViolations p prod.constraints) := by
  constructor
  · show (hardConstraintPass p prod.constraints).1 = _
    rw [hardConstraintPass_eq]
  · intro h
    have h1 : (hardConstraintPass p prod.constraints).1 = false := h
    show (decisionPass (hardConstraintPass p prod.constraints).1
      (hardConstraintPass p prod.constraints).2 (finalScoreOf p prod)
      prod.scoring.thresholds).2.2 = _
    rw [h1, hardConstraintPass_eq]
    simp [decisionPass]

/-- C1 witness: a 19-year-old against a product with `minAge 21` is
ineligible with exactly the under-age reason. -/
theorem c1_eligibility_enforced_constraints_witness :
    (evaluateProductForProfile profAge19 prodMinAge).eligible = false ∧
    (evaluateProductForProfile profAge19 prodMinAge).reasons
      = [.underMinAge 21] := by
  have h := c1_eligibility_enforced_constraints profAge19 prodMinAge
  have hl : enforcedViolations profAge19 prodMinAge.constraints
      = [.underMinAge 21] := by
    norm_num [enforcedViolations, truthyCheckList, definedCheckList,
      profAge19, prodMinAge, jsOr]
  have he : (evaluateProductForProfile profAge19 prodMinAge).eligible = false := by
    rw [h.1, hl]; rfl
  exact ⟨he, by rw [h.2 he, hl]⟩

/-! ## Claim C2 -/

/-- C2 bug exhibit: the profile's bounced-cheque count is *present* and
equal to the good anchor `0`, so the two-threshold ramp itself gives the
normalized value `1`; yet the engine's score is `0`, because
`rawValue || bad` in `addScore` treats the falsy present value `0` like
a missing value and substitutes the bad anchor.  The code's own comment
says the worst case is assumed "if missing" — the spec states the
intended behaviour and the code deviates on present zeroes. -/
theorem c2_present_zero_scored_as_bad :
    profBC0.bouncedChequesLast12Months = some 0 ∧
    normalize 0 0 3 false = 1 ∧
    (evaluateProductForProfile profBC0 prodBC).score = 0 := by
  refine ⟨rfl, by norm_num [normalize], ?_⟩
  have hfs : finalScoreOf profBC0 prodBC = 0 := by
    norm_num [finalScoreOf, scorePass, metricEntries, addScore, jsOr,
      normalize, prodBC, profBC0]
  show round2 (finalScoreOf profBC0 prodBC) = 0
  rw [hfs]
  norm_num [round2, Int.floor_eq_iff]

/-! ## Claim C5 -/

/-- C5 bug exhibit: bounced cheques is a lower-is-better metric, yet
decreasing the raw count from `1` to `0` *decreases* the score
(`0.67` drops to `0`), because the present value `0` is coerced to the
bad anchor by `rawValue || bad`.  The `normalize` ramp itself is
monotone; the coercion in front of it is what breaks the claim. -/
theorem c5_lowering_raw_value_lowers_score :
    (evaluateProductForProfile profBC0 prodBC).score <
      (evaluateProductForProfile profBC1 prodBC).score := by
  have h0 : finalScoreOf profBC0 prodBC = 0 := by
    norm_num [finalScoreOf, scorePass, metricEntries, addScore, jsOr,
      normalize, prodBC, profBC0]
  have h1 : finalScoreOf profBC1 prodBC = 2/3 := by
    norm_num [finalScoreOf, scorePass, metricEntries, addScore, jsOr,
      normalize, prodBC, profBC1]
  have e0 : round2 (0 : ℚ) = 0 := by norm_num [round2, Int.floor_eq_iff]
  have e1 : round2 (2/3 : ℚ) = 67/100 := by
    norm_num [round2, Int.floor_eq_iff]
  show round2 (finalScoreOf profBC0 prodBC) <
    round2 (finalScoreOf profBC1 prodBC)
  rw [h0, h1, e0, e1]
  norm_num

/-! ## Claim C3 -/

/-- C3: the result's score is the weight-sum-normalized average
`Σ(wᵢ·normalizedᵢ)/Σ(wᵢ)` over the metrics with a configured non-zero
weight, rounded to two decimals, and `0` when no non-zero weight is
configured.  The hypothesis is the catalog invariant that configured
weights are nonnegative (so "non-zero" and the code's `weight > 0` gate
coincide).  The decision pass compares the *unrounded* score; only the
reported field is rounded. -/
theorem c3_score_weighted_average (p : CustomerProfile) (prod : Product)
    (hw : ∀ e ∈ metricEntries p prod.scoring.weights, ∀ w, e.1 = some w → 0 ≤ w) :
    (evaluateProductForProfile p prod).score = round2 (specScore p prod) ∧
    (weightedContributions p prod.scoring.weights = [] →
      (evaluateProductForProfile p prod).score = 0) := by
  have hsp : scorePass p prod.scoring.weights =
      (((weightedContributions p prod.scoring.weights).map
          (fun c => c.1 * c.2)).sum,
       ((weightedContributions p prod.scoring.weights).map Prod.fst).sum) := by
    rw [scorePass, addScore_foldl _ _ hw]
    simp [weightedContributions]
  have hfs : finalScoreOf p prod = specScore p prod := by
    simp only [finalScoreOf, specScore, hsp]
  constructor
  · show round2 (finalScoreOf p prod) = round2 (specScore p prod)
    rw [hfs]
  · intro h
    show round2 (finalScoreOf p prod) = 0
    have hz : specScore p prod = 0 := by simp [specScore, h]
    rw [hfs, hz]
    norm_num [round2, Int.floor_eq_iff]

/-- C3 witness: a product weighting DTI and DSCR. -/
theorem c3_score_weighted_average_witness :
    (evaluateProductForProfile profMix prodMix).score
      = round2 (specScore profMix prodMix) := by
  refine (c3_score_weighted_average profMix prodMix ?_).1
  intro e he w hew
  simp only [metricEntries] at he
  fin_cases he <;> simp [prodMix, profMix] at hew <;> subst hew <;> norm_num

/-! ## Claim C4 -/

/-- C4: the decision rules.  Ineligible ⇒ DECLINE with a summary citing
the first violated constraint and no extra reason appended; eligible ⇒
APPROVE when the unrounded score reaches the approve threshold, REVIEW
(appending exactly "Borderline Score") when it only reaches the review
threshold, and DECLINE (appending exactly "Low Score") otherwise. -/
theorem c4_decision_rules (p : CustomerProfile) (prod : Product) :
    ((evaluateProductForProfile p prod).eligible = false →
      (evaluateProductForProfile p prod).decision = .DECLINE ∧
      (evaluateProductForProfile p prod).summary
        = .failedRequirements (enforcedViolations p prod.constraints).head? ∧
      (evaluateProductForProfile p prod).reasons
        = enforcedViolations p prod.constraints) ∧
    ((evaluateProductForProfile p prod).eligible = true →
      (prod.scoring.thresholds.approve ≤ finalScoreOf p prod →
        (evaluateProductForProfile p prod).decision = .APPROVE ∧
        (evaluateProductForProfile p prod).reasons = []) ∧
      (¬ prod.scoring.thresholds.approve ≤ finalScoreOf p prod →
        prod.scoring.thresholds.review ≤ finalScoreOf p prod →
        (evaluateProductForProfile p prod).decision = .REVIEW ∧
        (evaluateProductForProfile p prod).reasons = [.borderlineScore]) ∧
      (¬ prod.scoring.thresholds.approve ≤ finalScoreOf p prod →
        ¬ prod.scoring.thresholds.review ≤ finalScoreOf p prod →
        (evaluateProductForProfile p prod).decision = .DECLINE ∧
        (evaluateProductForProfile p prod).reasons = [.lowScore])) := by
  have h2 : (hardConstraintPass p prod.constraints).2
      = enforcedViolations p prod.constraints := by
    rw [hardConstraintPass_eq]
  constructor
  · intro h
    have h1 : (hardConstraintPass p prod.constraints).1 = false := h
    refine ⟨?_, ?_, ?_⟩
    · show (decisionPass (hardConstraintPass p prod.constraints).1
        (hardConstraintPass p prod.constraints).2 (finalScoreOf p prod)
        prod.scoring.thresholds).1 = _
      rw [h1]
      simp [decisionPass]
    · show (decisionPass (hardConstraintPass p prod.constraints).1
        (hardConstraintPass p prod.constraints).2 (finalScoreOf p prod)
        prod.scoring.thresholds).2.1 = _
      rw [h1, h2]
      simp [decisionPass]
    · show (decisionPass (hardConstraintPass p prod.constraints).1
        (hardConstraintPass p prod.constraints).2 (finalScoreOf p prod)
        prod.scoring.thresholds).2.2 = _
      rw [h1, h2]
      simp [decisionPass]
  · intro h
    have h1 : (hardConstraintPass p prod.constraints).1 = true := h
    have hnil : (hardConstraintPass p prod.constraints).2 = [] := by
      have hh := h1
      rw [hardConstraintPass_eq] at hh
      simp only [List.isEmpty_iff] at hh
      rw [h2, hh]
    refine ⟨?_, ?_, ?_⟩
    · intro ha
      constructor
      · show (decisionPass (hardConstraintPass p prod.constraints).1
          (hardConstraintPass p prod.constraints).2 (finalScoreOf p prod)
          prod.scoring.thresholds).1 = _
        rw [h1]
        simp [decisionPass, ge_iff_le, ha]
      · show (decisionPass (hardConstraintPass p prod.constraints).1
          (hardConstraintPass p prod.constraints).2 (finalScoreOf p prod)
          prod.scoring.thresholds).2.2 = _
        rw [h1, hnil]
        simp [decisionPass, ge_iff_le, ha]
    · intro hna hr
      constructor
      · show (decisionPass (hardConstraintPass p prod.constraints).1
          (hardConstraintPass p prod.constraints).2 (finalScoreOf p prod)
          prod.scoring.thresholds).1 = _
        rw [h1]
        simp [decisionPass, ge_iff_le, hna, hr]
      · show (decisionPass (hardConstraintPass p prod.constraints).1
          (hardConstraintPass p prod.constraints).2 (finalScoreOf p prod)
          prod.scoring.thresholds).2.2 = _
        rw [h1, hnil]
        simp [decisionPass, ge_iff_le, hna, hr]
    · intro hna hnr
      constructor
      · show (decisionPass (hardConstraintPass p prod.constraints).1
          (hardConstraintPass p prod.constraints).2 (finalScoreOf p prod)
          prod.scoring.thresholds).1 = _
        rw [h1]
        simp [decisionPass, ge_iff_le, hna, hnr]
      · show (decisionPass (hardConstraintPass p prod.constraints).1
          (hardConstraintPass p prod.constraints).2 (finalScoreOf p prod)
          prod.scoring.thresholds).2.2 = _
        rw [h1, hnil]
        simp [decisionPass, ge_iff_le, hna, hnr]

/-- C4 witness: a DSCR of 1.25 against approve 0.75 / review 0.5 lands
in the REVIEW band with exactly the borderline reason. -/
theorem c4_decision_rules_witness :
    (evaluateProductForProfile profMix prodDscr).decision = .REVIEW ∧
    (evaluateProductForProfile profMix prodDscr).reasons = [.borderlineScore] := by
  have h := c4_decision_rules profMix prodDscr
  have hfs : finalScoreOf profMix prodDscr = 1/2 := by
    norm_num [finalScoreOf, scorePass, metricEntries, addScore, jsOr,
      normalize, prodDscr, profMix]
  have he : (evaluateProductForProfile profMix prodDscr).eligible = true := by
    show (hardConstraintPass profMix prodDscr.constraints).1 = true
    rw [hardConstraintPass_eq]
    norm_num [enforcedViolations, truthyCheckList, definedCheckList,
      prodDscr, profMix, jsOr]
  exact (h.2 he).2.1 (by rw [hfs]; norm_num [prodDscr])
    (by rw [hfs]; norm_num [prodDscr])

/-! ## Claim C6 -/

/-- A failing document always contributes at least one issue string. -/
theorem docIssues_ne_nil (manualName : Option String)
    (v : DocumentValidation)
    (hfail : ¬(v.nameMatchesDeclared = true ∧ v.typeMatchesSlot = true)) :
    docIssues manualName v ≠ [] := by
  by_cases hn : v.nameMatchesDeclared = true <;>
    by_cases ht : v.typeMatchesSlot = true <;>
    by_cases hi : v.issues = [] <;>
    simp [docIssues, hn, ht, hi] at hfail ⊢

/-- C6 counterexample: for a document whose name check failed, whose
type check passed and whose collaborator issue list is empty, the
collected error is the name-mismatch fallback, which names the slot, the
declared name and the detected name — it does not name the expected or
detected document type (here `PAYSLIP`), contrary to the claim's
description of the fallback. -/
theorem c6_fallback_does_not_name_types :
    collectValidationErrors (some "Alice") [valNameOnly]
      = ["Name mismatch in ID_DOCUMENT: Expected 'Alice', found 'Bob'."] ∧
    strContains "Name mismatch in ID_DOCUMENT: Expected 'Alice', found 'Bob'."
      "PAYSLIP" = false := by
  constructor
  · rfl
  · decide

/-- C6 (amended): whenever the validator reports at least one document
failing the name or the type check, the run fails — for every extraction
result, product catalog and explanation oracle, i.e. extraction is never
consulted — with the single aggregated newline-bulleted message listing,
for every failing document, the collaborator-supplied issue texts when
present, and otherwise a name-mismatch fallback (naming slot, declared
name, detected name) and/or a type-mismatch fallback (naming slot,
expected type, detected type), one per failed check. -/
theorem c6_validation_failure_aborts_run (manualName : Option String)
    (docs : List DocumentValidation)
    (extractionRes : Except String CustomerProfile)
    (products : List Product)
    (explOracle : List (Except Unit (Option String × Option String)))
    (hbad : ∃ v ∈ docs, ¬(v.nameMatchesDeclared = true ∧ v.typeMatchesSlot = true)) :
    runAnalysisPure manualName (.ok docs) extractionRes products explOracle
      = .failed (validationFailureMessage
          (docs.flatMap (docIssues manualName))) := by
  have hne : collectValidationErrors manualName docs ≠ [] := by
    rw [collectValidationErrors_eq_flatMap]
    obtain ⟨v, hv, hfail⟩ := hbad
    intro hnil
    exact docIssues_ne_nil manualName v hfail
      (List.flatMap_eq_nil_iff.mp hnil v hv)
  simp only [runAnalysisPure]
  rw [if_neg hne, collectValidationErrors_eq_flatMap]

/-- C6 witness: one name-failing document aborts the run for the trivial
extraction result and empty catalog. -/
theorem c6_validation_failure_aborts_run_witness :
    runAnalysisPure (some "Alice") (.ok [valNameOnly]) (.ok defaultProfile) [] []
      = .failed (validationFailureMessage
          ([valNameOnly].flatMap (docIssues (some "Alice")))) := by
  exact c6_validation_failure_aborts_run (some "Alice") [valNameOnly]
    (.ok defaultProfile) [] []
    ⟨valNameOnly, List.mem_cons_self _ _, by simp [valNameOnly]⟩

/-! ## Claim C7 -/

/-- C7: explanation-failure isolation.  If validation passes and
extraction succeeds, the run reaches the success outcome for *any*
pattern of explanation-call failures; a product whose explanation call
failed carries the fixed fallback text in both fields (not the pending
sentinel), and every product whose call returned generated texts carries
exactly those texts — in particular, when exactly one of N calls fails,
the other N−1 keep their generated explanations. -/
theorem c7_explanation_failure_isolated (manualName : Option String)
    (docs : List DocumentValidation) (prof : CustomerProfile)
    (products : List Product)
    (explOracle : List (Except Unit (Option String × Option String)))
    (i : ℕ)
    (hvalid : collectValidationErrors manualName docs = [])
    (hfail : explOracle[i]? = some (.error ())) :
    ∃ evals : List EvaluationResult,
      runAnalysisPure manualName (.ok docs) (.ok prof) products
        explOracle = .ok evals ∧
      (∀ ev : EvaluationResult, evals[i]? = some ev →
        ev.customerExplanation = "Could not generate explanation." ∧
        ev.advisorExplanation = "Could not generate explanation.") ∧
      (∀ (j : ℕ) (c a : String) (ev : EvaluationResult),
        explOracle[j]? = some (Except.ok (some c, some a)) →
        evals[j]? = some ev →
        ev.customerExplanation = c ∧ ev.advisorExplanation = a) := by
  refine ⟨List.zipWith withExplanations
      ((relevantProducts prof.customerType products).map
        (evaluateProductForProfile prof)) explOracle, ?_, ?_, ?_⟩
  · simp only [runAnalysisPure]
    rw [if_pos hvalid]
  · intro ev hev
    rw [List.getElem?_zipWith] at hev
    rw [hfail] at hev
    rcases hl : ((relevantProducts prof.customerType products).map
        (evaluateProductForProfile prof))[i]? with _ | e
    · rw [hl] at hev
      simp at hev
    · rw [hl] at hev
      simp only [Option.some_inj] at hev
      subst hev
      exact ⟨rfl, rfl⟩
  · intro j c a ev hj hev
    rw [List.getElem?_zipWith] at hev
    rw [hj] at hev
    rcases hl : ((relevantProducts prof.customerType products).map
        (evaluateProductForProfile prof))[j]? with _ | e
    · rw [hl] at hev
      simp at hev
    · rw [hl] at hev
      simp only [Option.some_inj] at hev
      subst hev
      exact ⟨rfl, rfl⟩

/-- C7 witness: two products, the second explanation call fails; the
first keeps its generated texts and the second degrades to the fallback,
with the run still succeeding. -/
theorem c7_explanation_failure_isolated_witness :
    ∃ evals : List EvaluationResult,
      runAnalysisPure none (.ok []) (.ok defaultProfile)
        [prodBC, prodMinAge]
        [.ok (some "c1", some "a1"), .error ()] = .ok evals ∧
      (∀ ev : EvaluationResult, evals[1]? = some ev →
        ev.customerExplanation = "Could not generate explanation." ∧
        ev.advisorExplanation = "Could not generate explanation.") ∧
      (∀ (j : ℕ) (c a : String) (ev : EvaluationResult),
        ([Except.ok (some "c1", some "a1"), Except.error ()])[j]?
          = some (Except.ok (some c, some a)) →
        evals[j]? = some ev →
        ev.customerExplanation = c ∧ ev.advisorExplanation = a) := by
  exact c7_explanation_failure_isolated none [] defaultProfile
    [prodBC, prodMinAge] [.ok (some "c1", some "a1"), .error ()] 1
    rfl rfl

/-! ## Claim C8 -/

/-- C8: cancellation.  Both `cancelAnalysis` and starting a new run with
a fresh id invalidate a run's identifier; once a state's current id no
longer matches run `a`, every one of `a`'s segments — and hence any
sequence of them — leaves the state unchanged, so no profile,
evaluation, status, progress or error write of the stale run is ever
committed.  An explicit cancel of a running state goes to `idle` (never
`failed`), clears the run id, resets progress and leaves the error,
profile and evaluation fields untouched. -/
theorem c8_cancellation_discards_stale_run (products : List Product)
    (a : ℕ) (s : RState) :
    (∀ seg : RSeg, s.currentRunId ≠ some a → applySeg products a seg s = s) ∧
    (∀ l : List RSeg, s.currentRunId ≠ some a →
      l.foldl (fun st seg => applySeg products a seg st) s = s) ∧
    (s.analysisStatus = .running →
      (applyCancel s).currentRunId = none ∧
      (applyCancel s).analysisStatus = .idle ∧
      (applyCancel s).error = s.error ∧
      (applyCancel s).profile = s.profile ∧
      (applyCancel s).evaluations = s.evaluations) ∧
    (∀ b : ℕ, b ≠ a → (applyStart b s).currentRunId ≠ some a) := by
  have hseg : ∀ seg : RSeg, s.currentRunId ≠ some a →
      applySeg products a seg s = s := by
    intro seg h
    simp [applySeg, h]
  refine ⟨hseg, ?_, ?_, ?_⟩
  · intro l h
    induction l with
    | nil => rfl
    | cons seg tl ih =>
      simp only [List.foldl_cons]
      rw [hseg seg h]
      exact ih
  · intro h
    simp [applyCancel, h]
  · intro b hb
    simp [applyStart, hb]

/-- C8 witness: on the freshly started state of run 0, segments of a
different run 7 are no-ops, and cancelling goes to idle without touching
the error. -/
theorem c8_cancellation_discards_stale_run_witness :
    applySeg [] 7 (.finished []) startedState = startedState ∧
    (applyCancel startedState).analysisStatus = .idle ∧
    (applyCancel startedState).error = startedState.error := by
  have h := c8_cancellation_discards_stale_run [] 7 startedState
  have hid : startedState.currentRunId ≠ some 7 := by
    simp [startedState, applyStart, initialRState]
  have hrun : startedState.analysisStatus = .running := rfl
  exact ⟨h.1 (.finished []) hid, (h.2.2.1 hrun).2.1, (h.2.2.1 hrun).2.2.1⟩

/-! ## Claim C9 -/

/-- State of run 1 after its start prefix and 31 ticker firings. -/
def tickedState : RState :=
  (applySeg [] 1 RSeg.tick)^[31] (applyStart 1 initialRState)

/-- C9 counterexample: the published progress is *not* monotonically
non-decreasing across every update.  If validation is slow enough for
the ticker to fire 31 times, progress reaches 31; the validation-done
stage jump then writes 30, a strict decrease. -/
theorem c9_stage_jump_decreases_progress :
    tickedState.progress = 31 ∧
    (applySeg [] 1 (.validated []) tickedState).progress = 30 ∧
    (applySeg [] 1 (.validated []) tickedState).progress
      < tickedState.progress := by
  have h31 : tickedState.progress = 31 := by
    norm_num [tickedState, Function.iterate_succ_apply, applySeg, applyStart,
      initialRState]
  have h30 : (applySeg [] 1 (.validated []) tickedState).progress = 30 := by
    have hid : tickedState.currentRunId = some 1 := by
      norm_num [tickedState, Function.iterate_succ_apply, applySeg, applyStart,
        initialRState]
    simp [applySeg, hid]
  exact ⟨h31, h30, by rw [h31, h30]; norm_num⟩

/-- C9 (amended): a ticker update never decreases progress (it caps at
95), and any single update whose result has progress 100 is the success
transition (or progress was already 100): within a run, 100 is reached
only together with status success — but stage jumps may lower progress
below a value the ticker already reached, so monotonicity does not hold
across every update. -/
theorem c9_progress_100_only_on_success (products : List Product)
    (a : ℕ) (seg : RSeg) (s : RState) :
    s.progress ≤ (applySeg products a RSeg.tick s).progress ∧
    ((applySeg products a seg s).progress = 100 →
      (applySeg products a seg s).analysisStatus = .success ∨
      s.progress = 100) := by
  constructor
  · by_cases hid : s.currentRunId = some a
    · simp only [applySeg, hid, if_pos]
      by_cases h95 : s.progress ≥ 95 <;> simp [h95]
    · simp [applySeg, hid]
  · intro h100
    by_cases hid : s.currentRunId = some a
    · cases seg with
      | validated errs =>
        by_cases he : errs = [] <;>
          simp only [applySeg, hid, if_pos, he, if_neg] at h100 ⊢ <;>
          simp_all
      | extracted res =>
        cases res with
        | error e => simp only [applySeg, hid, if_pos] at h100 ⊢; exact Or.inr h100
        | ok prof =>
          simp only [applySeg, hid, if_pos] at h100
          norm_num at h100
      | explProgress completed total =>
        simp only [applySeg, hid, if_pos] at h100
        have : min (70 + ((completed : ℚ) / (total : ℚ)) * 25) 95 ≤ 95 :=
          min_le_right _ _
        rw [h100] at this
        norm_num at this
      | finished fullEvals =>
        simp [applySeg, hid]
      | tick =>
        simp only [applySeg, hid, if_pos] at h100 ⊢
        by_cases h95 : s.progress ≥ 95
        · rw [if_pos h95] at h100
          exact Or.inr h100
        · rw [if_neg h95] at h100
          exfalso
          have : s.progress = 99 := by linarith
          rw [this] at h95
          norm_num at h95
      | autoAdvance =>
        simp only [applySeg, hid, if_pos] at h100 ⊢
        exact Or.inr h100
      | failedCatch msg =>
        by_cases hm : msg = "Cancelled" <;>
          simp only [applySeg, hid, if_pos, hm, if_neg] at h100 ⊢ <;>
          simp_all
    · simp only [applySeg, hid, if_neg] at h100
      simp [applySeg, hid]
      exact Or.inr h100

/-- C9 witness: the success segment of the current run takes progress to
100 with status success, and a tick from the started state does not
decrease progress. -/
theorem c9_progress_100_only_on_success_witness :
    startedState.progress ≤ (applySeg [] 0 RSeg.tick startedState).progress ∧
    (applySeg [] 0 (.finished []) startedState).analysisStatus = .success := by
  have h := c9_progress_100_only_on_success [] 0 (.finished []) startedState
  refine ⟨h.1, ?_⟩
  have h100 : (applySeg [] 0 (.finished []) startedState).progress = 100 := by
    have hid : startedState.currentRunId = some 0 := rfl
    simp [applySeg, hid]
  rcases h.2 h100 with hs | habs
  · exact hs
  · exfalso
    have : startedState.progress = 0 := rfl
    rw [this] at habs
    norm_num at habs

/-! ## Claim C10 -/

/-- C10 counterexample: an `Error` whose message contains none of the
markers keeps its *raw* message as the stored error — it does not get
the generic analysis-failed message, contrary to the claim. -/
theorem c10_unrecognized_error_kept_raw :
    classifyError (some "The operation was aborted.")
      = "The operation was aborted." ∧
    "The operation was aborted." ≠ "Analysis failed. Please try again." ∧
    strContains "The operation was aborted." "API key" = false ∧
    strContains "The operation was aborted." "400" = false ∧
    strContains "The operation was aborted." "500" = false := by
  refine ⟨?_, by decide, by decide, by decide, by decide⟩
  decide

/-- C10 (amended): the catch block maps an `Error`'s raw message by
first-match priority — an "API key" marker wins over "400", which wins
over "500" — and an `Error` matching no marker keeps its raw message;
the generic analysis-failed message applies only to non-`Error` throws.
The classification only feeds the stored error string: for any current
run and any non-"Cancelled" message, the failure transition sets status
`failed` with the classified message as error, independent of which
category matched. -/
theorem c10_error_classification (raw : String) (products : List Product)
    (a : ℕ) (s : RState) (m : String)
    (hcur : s.currentRunId = some a) (hm : m ≠ "Cancelled") :
    classifyError (some raw)
      = (if strContains raw "API key" then "Invalid or missing API Key."
         else if strContains raw "400" then
           "Bad Request: The AI could not process these documents."
         else if strContains raw "500" then
           "Server Error: Gemini is currently experiencing issues."
         else raw) ∧
    classifyError none = "Analysis failed. Please try again." ∧
    (applySeg products a (.failedCatch m) s).analysisStatus = .failed ∧
    (applySeg products a (.failedCatch m) s).error
      = some (classifyError (some m)) := by
  have k1 : strContains "Invalid or missing API Key." "400" = false := by decide
  have k2 : strContains "Invalid or missing API Key." "500" = false := by decide
  have k3 : strContains
      "Bad Request: The AI could not process these documents." "500"
      = false := by decide
  refine ⟨?_, rfl, ?_, ?_⟩
  · by_cases h1 : strContains raw "API key" <;>
      by_cases h2 : strContains raw "400" <;>
      by_cases h3 : strContains raw "500" <;>
      simp [classifyError, h1, h2, h3, k1, k2, k3]
  · simp [applySeg, hcur, hm]
  · simp [applySeg, hcur, hm]

/-- C10 witness: a "500" message is reworded to the upstream-fault text,
and a plain message drives the failed transition with itself stored. -/
theorem c10_error_classification_witness :
    classifyError (some "HTTP 500 from upstream")
      = "Server Error: Gemini is currently experiencing issues." ∧
    (applySeg [] 0 (.failedCatch "boom") startedState).analysisStatus
      = .failed ∧
    (applySeg [] 0 (.failedCatch "boom") startedState).error
      = some (classifyError (some "boom")) := by
  have h := c10_error_classification "HTTP 500 from upstream" [] 0
    startedState "boom" rfl (by decide)
  refine ⟨?_, h.2.2.1, h.2.2.2⟩
  rw [h.1]
  decide

end Copilot
